import Mathlib

/-!
Shallow embedding of the fixed-income fund peer-scoring system
(`FIPeerScoring` in `src/scoring.py`; `src/tmp_file.py` is identical on
all of the scoring core, differing only in the export glue).

Modelling conventions:
* Python numbers (scores, weights, fee bands) are modelled as `ℚ`;
  every numeric value the code manipulates is a small dyadic rational,
  so rational arithmetic is exact where float arithmetic is exact.
* A possibly-missing attribute (a pandas `NaN` cell) is an `Option`.
* `raise` is modelled by `Except`.
* pandas DataFrames are lists of records; row filters become `List.filter`.
-/

namespace FIPeerScoring

/-- One fund record (one row of `all_funds_df`).  Fields the scoring core
reads: `fund_id`, `fund_name`, `morningstar_category`, `currency`,
`is_passive`, `fee_band`, `region`, `primary_sector`.  A `none` models a
missing (`NaN`) cell. -/
structure Fund where
  fund_id : String
  fund_name : Option String
  morningstar_category : Option String
  currency : Option String
  is_passive : Option Bool
  fee_band : Option ℚ
  region : Option String
  primary_sector : Option String
deriving DecidableEq

/-- Python `str.lower` (ASCII-adequate model). -/
def pyLower (s : String) : String :=
  ⟨s.data.map Char.toLower⟩

/-- Python `needle in hay` (substring containment). -/
def strContainsSub (hay needle : String) : Bool :=
  hay.data.tails.any (fun t => needle.data.isPrefixOf t)

/-- `currency_score` (scoring.py:43-54): 100 on match, 0 on mismatch,
25 when either value is missing. -/
def currency_score (fund1_currency fund2_currency : Option String) : ℚ :=
  match fund1_currency, fund2_currency with
  | some c1, some c2 => if c1 = c2 then 100 else 0
  | _, _ => 25

/-- `passive_score` (scoring.py:56-67): 100 on match, 0 on mismatch,
50 when either value is missing. -/
def passive_score (fund1_passive fund2_passive : Option Bool) : ℚ :=
  match fund1_passive, fund2_passive with
  | some p1, some p2 => if p1 = p2 then 100 else 0
  | _, _ => 50

/-- `fee_band_score` (scoring.py:69-98): 30 when either band is missing;
otherwise `score_map.get(abs(band1 - band2), 0)` with the map
`{0: 100, 1: 75, 2: 50, 3: 25, 4: 0}` (so any difference outside
`{0,1,2,3,4}` — larger, or non-integral — falls to the default 0). -/
def fee_band_score (fund1_band fund2_band : Option ℚ) : ℚ :=
  match fund1_band, fund2_band with
  | some b1, some b2 =>
    let band_diff := |b1 - b2|
    if band_diff = 0 then 100
    else if band_diff = 1 then 75
    else if band_diff = 2 then 50
    else if band_diff = 3 then 25
    else if band_diff = 4 then 0
    else 0
  | _, _ => 30

/-- The lookup `region_similarity.get((fund1_region, fund2_region), 0)`
(scoring.py:119-129), applied to already-lowercased unequal strings.
The dict keys are pairwise distinct, so the lookup equals this chain of
tests. -/
def region_similarity (s1 s2 : String) : ℚ :=
  if s1 = "emerging" ∧ s2 = "other" then 40
  else if s1 = "other" ∧ s2 = "emerging" then 40
  else if s1 = "developed" ∧ s2 = "other" then 40
  else if s1 = "other" ∧ s2 = "developed" then 40
  else if s1 = "emerging" ∧ s2 = "developed" then 20
  else if s1 = "developed" ∧ s2 = "emerging" then 20
  else 0

/-- `region_score` (scoring.py:100-129): 30 when either region is missing;
case-insensitive exact match 100; otherwise the fixed similarity table. -/
def region_score (fund1_region fund2_region : Option String) : ℚ :=
  match fund1_region, fund2_region with
  | some r1, some r2 =>
    let s1 := pyLower r1
    let s2 := pyLower r2
    if s1 = s2 then 100 else region_similarity s1 s2
  | _, _ => 30

/-- The `related_sectors` table (scoring.py:149-154). -/
def related_sectors : List (String × List String) :=
  [("government", ["sovereign", "municipal", "agency"]),
   ("corporate", ["investment grade", "high yield", "credit"]),
   ("securitized", ["mbs", "abs", "cmbs"]),
   ("mixed", ["multi-sector", "diversified", "aggregate"])]

/-- The nested loop of `sector_score` (scoring.py:157-161), applied to
already-lowercased strings.  The Python loop returns the constant 60 at
the first qualifying (group, related-term) pair and 0 after the loop, so
it equals this `any`. -/
def sectors_related (s1 s2 : String) : Bool :=
  related_sectors.any (fun p =>
    (strContainsSub s1 p.1 || strContainsSub s2 p.1) &&
    p.2.any (fun r => strContainsSub s1 r || strContainsSub s2 r))

/-- `sector_score` (scoring.py:131-163): 30 when either sector is missing;
case-insensitive exact match 100; related by the substring heuristic 60;
otherwise 0. -/
def sector_score (fund1_sector fund2_sector : Option String) : ℚ :=
  match fund1_sector, fund2_sector with
  | some x1, some x2 =>
    let s1 := pyLower x1
    let s2 := pyLower x2
    if s1 = s2 then 100
    else if sectors_related s1 s2 then 60
    else 0
  | _, _ => 30

/-- The five scoring weights (`self.weights` in scoring.py:28-34). -/
structure Weights where
  currency : ℚ
  passive : ℚ
  fee : ℚ
  region : ℚ
  sector : ℚ
deriving DecidableEq

/-- `sum(self.weights.values())` (scoring.py:37). -/
def Weights.total (w : Weights) : ℚ :=
  w.currency + w.passive + w.fee + w.region + w.sector

/-- The default constructor arguments (scoring.py:11-16). -/
def defaultWeights : Weights :=
  { currency := 30, passive := 10, fee := 25, region := 20, sector := 15 }

/-- The failure `__init__` can raise: Python float division by zero. -/
inductive InitError where
  | divisionByZero
deriving DecidableEq

/-- The weight-validation step of `__init__` (scoring.py:36-41): if the
total differs from 100 by more than 0.01, each weight is replaced by
`(weight / total) * 100` and a warning is printed (modelled by the `Bool`
flag); dividing by a zero total raises `ZeroDivisionError`.  Otherwise the
weights are kept unchanged and no warning is printed. -/
def normalizeWeights (w : Weights) : Except InitError (Weights × Bool) :=
  if |w.total - 100| > 1/100 then
    if w.total = 0 then .error .divisionByZero
    else
      .ok ({ currency := w.currency / w.total * 100
             passive := w.passive / w.total * 100
             fee := w.fee / w.total * 100
             region := w.region / w.total * 100
             sector := w.sector / w.total * 100 }, true)
  else .ok (w, false)

/-- The five-entry component score mapping built by `calculate_peer_score`
(scoring.py:183-204). -/
structure ComponentScores where
  currency : ℚ
  passive : ℚ
  fee : ℚ
  region : ℚ
  sector : ℚ
deriving DecidableEq

/-- `calculate_peer_score` (scoring.py:165-212): the five component scores
and the weighted overall score
`sum(scores[c] * self.weights[c] / 100 for c in scores)`. -/
def calculate_peer_score (w : Weights) (fund1 fund2 : Fund) :
    ℚ × ComponentScores :=
  let scores : ComponentScores :=
    { currency := currency_score fund1.currency fund2.currency
      passive := passive_score fund1.is_passive fund2.is_passive
      fee := fee_band_score fund1.fee_band fund2.fee_band
      region := region_score fund1.region fund2.region
      sector := sector_score fund1.primary_sector fund2.primary_sector }
  let overall_score :=
    scores.currency * w.currency / 100 + scores.passive * w.passive / 100 +
    scores.fee * w.fee / 100 + scores.region * w.region / 100 +
    scores.sector * w.sector / 100
  (overall_score, scores)

/-- Mathematical floor of a rational, computed from its reduced fraction
(`⌊q⌋ = num fdiv den`). -/
def qfloor (q : ℚ) : ℤ :=
  Int.fdiv q.num (q.den : ℤ)

/-- Python `round(x, 2)` idealized over ℚ: round `100·x` to the nearest
integer, ties to even, and divide back by 100. -/
def round2 (q : ℚ) : ℚ :=
  let n := qfloor (q * 100)
  let r := q * 100 - (n : ℚ)
  let m := if r < 1/2 then n
    else if (1 : ℚ)/2 < r then n + 1
    else if n % 2 = 0 then n else n + 1
  (m : ℚ) / 100

/-- The failure `score_peers_for_fund` can raise (scoring.py:235):
`ValueError(f"Fund {target_fund_id} not found in dataset")`. -/
inductive PeerError where
  | notFound (target_fund_id : String)
deriving DecidableEq

/-- One row of the peer-finder result DataFrame (scoring.py:266-277).
`fund_name` carries the candidate's (possibly missing) name; the Python
fallback label `f"Fund_{idx}"` for an absent name column is presentation
only and is not modelled. -/
structure PeerResult where
  fund_id : String
  fund_name : Option String
  morningstar_category : String
  peer_score : ℚ
  currency : Option String
  is_passive : Option Bool
  fee_band : Option ℚ
  region : Option String
  primary_sector : Option String
  currency_score : ℚ
  passive_score : ℚ
  fee_score : ℚ
  region_score : ℚ
  sector_score : ℚ
deriving DecidableEq

/-- Python truthiness of `target_fund.get('is_passive', False)` on a row
dict (scoring.py:251): a present boolean is itself; a missing cell is
`NaN`, which is truthy in Python. -/
def passive_truthy : Option Bool → Bool
  | none => true
  | some b => b

/-- The result row built for one candidate (scoring.py:263-277): overall
and component scores rounded to two decimals, candidate attributes copied
through, the category taken from the target. -/
def mk_peer_result (w : Weights) (target_fund : Fund) (target_category : String)
    (candidate : Fund) : PeerResult :=
  let res := calculate_peer_score w target_fund candidate
  { fund_id := candidate.fund_id
    fund_name := candidate.fund_name
    morningstar_category := target_category
    peer_score := round2 res.1
    currency := candidate.currency
    is_passive := candidate.is_passive
    fee_band := candidate.fee_band
    region := candidate.region
    primary_sector := candidate.primary_sector
    currency_score := round2 res.2.currency
    passive_score := round2 res.2.passive
    fee_score := round2 res.2.fee
    region_score := round2 res.2.region
    sector_score := round2 res.2.sector }

/-- Descending order on result rows: `sort_values('peer_score',
ascending=False)` sorts so that later rows have `peer_score ≤` earlier
ones. -/
def score_ge (a b : PeerResult) : Prop :=
  b.peer_score ≤ a.peer_score

instance : DecidableRel score_ge :=
  fun a b => inferInstanceAs (Decidable (b.peer_score ≤ a.peer_score))

instance : IsTotal PeerResult score_ge :=
  ⟨fun a b => le_total b.peer_score a.peer_score⟩

instance : IsTrans PeerResult score_ge :=
  ⟨fun _ _ _ h1 h2 => le_trans h2 h1⟩

/-- `score_peers_for_fund` (scoring.py:214-283).  Row selection
`all_funds_df[all_funds_df['fund_id'] == target_fund_id]` with `.iloc[0]`
is the first list element with that id; a missing category yields an empty
result (with a printed warning); the candidate set is the other funds of
the same category; the passive filter `is_passive != True` is applied only
when `exclude_passive` holds and the target's `is_passive` entry is falsy;
an empty candidate set yields an empty result; otherwise every candidate
is scored and the rows are sorted by descending `peer_score`. -/
def score_peers_for_fund (w : Weights) (target_fund_id : String)
    (all_funds : List Fund) (exclude_passive : Bool) :
    Except PeerError (List PeerResult) :=
  match (all_funds.filter (fun f => decide (f.fund_id = target_fund_id))).head? with
  | none => .error (.notFound target_fund_id)
  | some target_fund =>
    match target_fund.morningstar_category with
    | none => .ok []
    | some target_category =>
      let same_category_funds := all_funds.filter (fun f =>
        decide (f.morningstar_category = some target_category) &&
        decide (f.fund_id ≠ target_fund_id))
      let candidates :=
        if exclude_passive && !(passive_truthy target_fund.is_passive) then
          same_category_funds.filter (fun f => decide (f.is_passive ≠ some true))
        else same_category_funds
      if candidates.isEmpty then .ok []
      else
        .ok (List.insertionSort score_ge
          (candidates.map (fun candidate =>
            mk_peer_result w target_fund target_category candidate)))

/-- The list a caller obtains from a non-raising run of the peer finder
(an exception carries no rows). -/
def okPeers : Except PeerError (List PeerResult) → List PeerResult
  | .ok l => l
  | .error _ => []

/-- One peer-group record (scoring.py:345-358). -/
structure PeerGroup where
  fund_name : Option String
  morningstar_category : Option String
  peer_count : ℕ
  avg_peer_score : ℚ
  peers : List PeerResult
  category_total_funds : ℕ
  dist_90_100 : ℕ
  dist_80_89 : ℕ
  dist_70_79 : ℕ
  dist_below_70 : ℕ
deriving DecidableEq

/-- A target's entry in the `peer_groups` dict: either the reduced record
stored when the peer finder returned no rows (scoring.py:332-339) or the
full record (scoring.py:344-358). -/
inductive PeerGroupEntry where
  | emptyGroup (fund_name : Option String) (morningstar_category : Option String)
  | group (g : PeerGroup)
deriving DecidableEq

/-- The rows of `peers` in a group entry (`[]` for the reduced record). -/
def entry_peers : Option PeerGroupEntry → List PeerResult
  | some (.group g) => g.peers
  | _ => []

/-- Whether a target produced the full peer-group record. -/
def entry_isGroup : Option PeerGroupEntry → Bool
  | some (.group _) => true
  | _ => false

/-- The loop body of `create_peer_groups_for_firm_funds`
(scoring.py:311-358) for one target id.  A target id absent from the
universe is skipped with a warning (`none`).  Otherwise the peer finder
runs — it cannot raise here, its only raise condition being exactly the
absence just excluded — and the record is assembled:
`qualified_peers = peer_scores_df[peer_scores_df['peer_score'] >=
min_score].head(max_peers)`, the average rounded to two decimals (0 if no
peer qualifies), the category size `len(peer_scores_df) + 1`, and the
four-bucket distribution over the unfiltered rows. -/
def build_peer_group (w : Weights) (all_funds : List Fund) (min_score : ℚ)
    (max_peers : ℕ) (exclude_passive : Bool) (fund_id : String) :
    Option PeerGroupEntry :=
  match (all_funds.filter (fun f => decide (f.fund_id = fund_id))).head? with
  | none => none
  | some fund_row =>
    let peer_scores :=
      okPeers (score_peers_for_fund w fund_id all_funds exclude_passive)
    if peer_scores.isEmpty then
      some (.emptyGroup fund_row.fund_name fund_row.morningstar_category)
    else
      let qualified_peers :=
        (peer_scores.filter (fun p => decide (min_score ≤ p.peer_score))).take max_peers
      some (.group
        { fund_name := fund_row.fund_name
          morningstar_category := fund_row.morningstar_category
          peer_count := qualified_peers.length
          avg_peer_score :=
            if qualified_peers.isEmpty then 0
            else round2 ((qualified_peers.map (fun p => p.peer_score)).sum /
              (qualified_peers.length : ℚ))
          peers := qualified_peers
          category_total_funds := peer_scores.length + 1
          dist_90_100 := peer_scores.countP (fun p => decide (90 ≤ p.peer_score))
          dist_80_89 := peer_scores.countP (fun p =>
            decide (80 ≤ p.peer_score) && decide (p.peer_score < 90))
          dist_70_79 := peer_scores.countP (fun p =>
            decide (70 ≤ p.peer_score) && decide (p.peer_score < 80))
          dist_below_70 := peer_scores.countP (fun p => decide (p.peer_score < 70)) })

/-- `create_peer_groups_for_firm_funds` (scoring.py:285-380), as the
association list it stores in the `peer_groups` dict: one entry per found
target id, in input order (the printed summary is presentation only). -/
def create_peer_groups_for_firm_funds (w : Weights) (firm_fund_ids : List String)
    (all_funds : List Fund) (min_score : ℚ) (max_peers : ℕ)
    (exclude_passive : Bool) : List (String × PeerGroupEntry) :=
  firm_fund_ids.filterMap (fun fund_id =>
    (build_peer_group w all_funds min_score max_peers exclude_passive fund_id).map
      (fun e => (fund_id, e)))

/-! Concrete fixtures used by witnesses and counterexamples. -/

/-- Fund A of the spec's worked scenario (§8). -/
def fundA : Fund :=
  { fund_id := "A", fund_name := some "Fund A", morningstar_category := some "X",
    currency := some "USD", is_passive := some false, fee_band := some 2,
    region := some "developed", primary_sector := some "corporate" }

/-- Fund B of the spec's worked scenario (§8). -/
def fundB : Fund :=
  { fund_id := "B", fund_name := some "Fund B", morningstar_category := some "X",
    currency := some "USD", is_passive := some false, fee_band := some 3,
    region := some "developed", primary_sector := some "corporate" }

/-- A passive target fund. -/
def fundT : Fund :=
  { fund_id := "T", fund_name := some "Fund T", morningstar_category := some "X",
    currency := some "USD", is_passive := some true, fee_band := some 2,
    region := some "developed", primary_sector := some "corporate" }

/-- A passive candidate in the same category as `fundT`. -/
def fundP : Fund :=
  { fund_id := "P", fund_name := some "Fund P", morningstar_category := some "X",
    currency := some "USD", is_passive := some true, fee_band := some 3,
    region := some "developed", primary_sector := some "corporate" }

/-! Helper lemmas shared by the claim theorems below. -/

theorem currency_score_bounds (a b : Option String) :
    0 ≤ currency_score a b ∧ currency_score a b ≤ 100 := by
  rcases a with _ | c1 <;> rcases b with _ | c2 <;>
    simp only [currency_score] <;> first
      | (split_ifs <;> norm_num)
      | norm_num

theorem passive_score_bounds (a b : Option Bool) :
    0 ≤ passive_score a b ∧ passive_score a b ≤ 100 := by
  rcases a with _ | p1 <;> rcases b with _ | p2 <;>
    simp only [passive_score] <;> first
      | (split_ifs <;> norm_num)
      | norm_num

theorem fee_band_score_bounds (a b : Option ℚ) :
    0 ≤ fee_band_score a b ∧ fee_band_score a b ≤ 100 := by
  rcases a with _ | b1 <;> rcases b with _ | b2 <;>
    simp only [fee_band_score] <;> first
      | (split_ifs <;> norm_num)
      | norm_num

theorem region_similarity_bounds (s1 s2 : String) :
    0 ≤ region_similarity s1 s2 ∧ region_similarity s1 s2 ≤ 100 := by
  unfold region_similarity
  split_ifs <;> norm_num

theorem region_score_bounds (a b : Option String) :
    0 ≤ region_score a b ∧ region_score a b ≤ 100 := by
  rcases a with _ | r1 <;> rcases b with _ | r2 <;>
    simp only [region_score] <;> first
      | (split_ifs <;> first | exact region_similarity_bounds _ _ | norm_num)
      | norm_num

theorem sector_score_bounds (a b : Option String) :
    0 ≤ sector_score a b ∧ sector_score a b ≤ 100 := by
  rcases a with _ | x1 <;> rcases b with _ | x2 <;>
    simp only [sector_score] <;> first
      | (split_ifs <;> norm_num)
      | norm_num

theorem region_similarity_comm (s1 s2 : String) :
    region_similarity s1 s2 = region_similarity s2 s1 := by
  unfold region_similarity
  split_ifs <;> simp_all

theorem sectors_related_comm (s1 s2 : String) :
    sectors_related s1 s2 = sectors_related s2 s1 := by
  unfold sectors_related
  congr 1
  funext p
  rw [Bool.or_comm (strContainsSub s1 p.1)]
  congr 1
  congr 1
  funext r
  rw [Bool.or_comm (strContainsSub s1 r)]



theorem currency_score_comm (a b : Option String) :
    currency_score a b = currency_score b a := by
  rcases a with _ | c1 <;> rcases b with _ | c2 <;> simp [currency_score, eq_comm]

theorem passive_score_comm (a b : Option Bool) :
    passive_score a b = passive_score b a := by
  rcases a with _ | p1 <;> rcases b with _ | p2 <;> simp [passive_score, eq_comm]

theorem fee_band_score_comm (a b : Option ℚ) :
    fee_band_score a b = fee_band_score b a := by
  rcases a with _ | b1 <;> rcases b with _ | b2 <;> simp only [fee_band_score]
  rw [abs_sub_comm]

theorem region_score_comm (a b : Option String) :
    region_score a b = region_score b a := by
  rcases a with _ | r1 <;> rcases b with _ | r2 <;> simp only [region_score]
  by_cases h : pyLower r1 = pyLower r2
  · simp [h]
  · rw [if_neg h, if_neg (fun h2 => h h2.symm), region_similarity_comm]

theorem sector_score_comm (a b : Option String) :
    sector_score a b = sector_score b a := by
  rcases a with _ | x1 <;> rcases b with _ | x2 <;> simp only [sector_score]
  by_cases h : pyLower x1 = pyLower x2
  · simp [h]
  · rw [if_neg h, if_neg (show ¬pyLower x2 = pyLower x1 from fun h2 => h h2.symm),
      sectors_related_comm]

theorem overall_score_bounds (w : Weights) (f1 f2 : Fund)
    (hc : 0 ≤ w.currency) (hp : 0 ≤ w.passive) (hf : 0 ≤ w.fee)
    (hr : 0 ≤ w.region) (hs : 0 ≤ w.sector) (ht : w.total = 100) :
    0 ≤ (calculate_peer_score w f1 f2).1 ∧ (calculate_peer_score w f1 f2).1 ≤ 100 := by
  obtain ⟨l1, u1⟩ := currency_score_bounds f1.currency f2.currency
  obtain ⟨l2, u2⟩ := passive_score_bounds f1.is_passive f2.is_passive
  obtain ⟨l3, u3⟩ := fee_band_score_bounds f1.fee_band f2.fee_band
  obtain ⟨l4, u4⟩ := region_score_bounds f1.region f2.region
  obtain ⟨l5, u5⟩ := sector_score_bounds f1.primary_sector f2.primary_sector
  have ht' : w.currency + w.passive + w.fee + w.region + w.sector = 100 := ht
  simp only [calculate_peer_score]
  constructor
  · have t1 := mul_nonneg l1 hc
    have t2 := mul_nonneg l2 hp
    have t3 := mul_nonneg l3 hf
    have t4 := mul_nonneg l4 hr
    have t5 := mul_nonneg l5 hs
    linarith
  · have t1 := mul_le_mul_of_nonneg_right u1 hc
    have t2 := mul_le_mul_of_nonneg_right u2 hp
    have t3 := mul_le_mul_of_nonneg_right u3 hf
    have t4 := mul_le_mul_of_nonneg_right u4 hr
    have t5 := mul_le_mul_of_nonneg_right u5 hs
    linarith

theorem sorted_okPeers (w : Weights) (tid : String) (funds : List Fund) (ep : Bool) :
    List.Sorted score_ge (okPeers (score_peers_for_fund w tid funds ep)) := by
  unfold score_peers_for_fund
  cases h : (funds.filter (fun f => decide (f.fund_id = tid))).head? with
  | none => exact List.sorted_nil
  | some target =>
    dsimp only
    cases hc : target.morningstar_category with
    | none => exact List.sorted_nil
    | some cat =>
      dsimp only
      split <;> first
        | exact List.sorted_nil
        | exact List.sorted_insertionSort _ _
        | (split <;> first
            | exact List.sorted_nil
            | exact List.sorted_insertionSort _ _)

/-! Claim theorems and witnesses. -/

/-- C1 (counterexample): on the spec's worked scenario with the default
weights, `calculate_peer_score` returns the overall score 93.75 = 375/4,
not the claimed 98.75 = 395/4. -/
theorem scenario_overall_counterexample :
    (calculate_peer_score defaultWeights fundA fundB).1 = 375/4 ∧
    ((375 : ℚ)/4 ≠ 395/4) := by
  constructor
  · norm_num [calculate_peer_score, defaultWeights, fundA, fundB, currency_score,
      passive_score, fee_band_score, region_score, sector_score, pyLower]
  · norm_num

/-- C1 (amended): constructing the scorer with the default weights keeps
them unchanged, and on funds A and B of the scenario `calculate_peer_score`
returns the component scores {currency 100, passive 100, fee 75,
region 100, sector 100} and the overall score 93.75. -/
theorem scenario_default_weights_scores :
    normalizeWeights defaultWeights = .ok (defaultWeights, false) ∧
    (calculate_peer_score defaultWeights fundA fundB).2 =
      ⟨100, 100, 75, 100, 100⟩ ∧
    (calculate_peer_score defaultWeights fundA fundB).1 = 375/4 := by
  refine ⟨?_, ?_, ?_⟩
  · norm_num [normalizeWeights, Weights.total, defaultWeights]
  · norm_num [calculate_peer_score, fundA, fundB, currency_score, passive_score,
      fee_band_score, region_score, sector_score, pyLower, ComponentScores.mk.injEq]
  · norm_num [calculate_peer_score, defaultWeights, fundA, fundB, currency_score,
      passive_score, fee_band_score, region_score, sector_score, pyLower]

/-- C2 (counterexample): for the non-missing numeric bands 1.5 and 1 the
claimed formula gives 100 − 25·|0.5| = 87.5, but `fee_band_score` returns
0 (the band difference misses every key of the score map). -/
theorem fee_band_noninteger_counterexample :
    fee_band_score (some (3/2)) (some 1) = 0 ∧
    100 - 25 * |(3/2 : ℚ) - 1| = 175/2 ∧ ((175 : ℚ)/2 ≠ 0) := by
  have habs : |(3/2 : ℚ) - 1| = 1/2 := by
    rw [show (3/2 : ℚ) - 1 = 1/2 by norm_num]
    exact abs_of_nonneg (by norm_num)
  have habs2 : |(1 : ℚ)/2| = 1/2 := abs_of_nonneg (by norm_num)
  refine ⟨?_, by rw [habs]; norm_num, by norm_num⟩
  norm_num [fee_band_score, habs, habs2]

/-- C2 (amended): for non-missing numeric bands, `fee_band_score` equals
100 − 25×|band difference| clipped below at 0 exactly when the absolute
band difference is an integer; for a non-integral difference it returns 0. -/
theorem fee_band_score_formula (b1 b2 : ℚ) :
    ((|b1 - b2|).den = 1 →
      fee_band_score (some b1) (some b2) = max (100 - 25 * |b1 - b2|) 0) ∧
    ((|b1 - b2|).den ≠ 1 → fee_band_score (some b1) (some b2) = 0) := by
  simp only [fee_band_score]
  set d := |b1 - b2| with hd
  have hd0 : 0 ≤ d := abs_nonneg _
  constructor
  · intro hden
    have hdz : (d.num : ℚ) = d := (Rat.den_eq_one_iff d).mp hden
    have hnum0 : 0 ≤ d.num := Rat.num_nonneg.mpr hd0
    by_cases h0 : d = 0
    · rw [if_pos h0, h0]; norm_num
    rw [if_neg h0]
    by_cases h1 : d = 1
    · rw [if_pos h1, h1]; norm_num
    rw [if_neg h1]
    by_cases h2 : d = 2
    · rw [if_pos h2, h2]; norm_num
    rw [if_neg h2]
    by_cases h3 : d = 3
    · rw [if_pos h3, h3]; norm_num
    rw [if_neg h3]
    by_cases h4 : d = 4
    · rw [if_pos h4, h4]; norm_num
    rw [if_neg h4]
    have hn5 : 5 ≤ d.num := by
      have e0 : d.num ≠ 0 := fun he => h0 (by rw [← hdz, he]; norm_num)
      have e1 : d.num ≠ 1 := fun he => h1 (by rw [← hdz, he]; norm_num)
      have e2 : d.num ≠ 2 := fun he => h2 (by rw [← hdz, he]; norm_num)
      have e3 : d.num ≠ 3 := fun he => h3 (by rw [← hdz, he]; norm_num)
      have e4 : d.num ≠ 4 := fun he => h4 (by rw [← hdz, he]; norm_num)
      omega
    have h5 : (5 : ℚ) ≤ d := by
      rw [← hdz]
      exact_mod_cast hn5
    rw [eq_comm, max_eq_right (by linarith)]
  · intro hden
    have ne0 : d ≠ 0 := fun he => hden (by rw [he]; rfl)
    have ne1 : d ≠ 1 := fun he => hden (by rw [he]; rfl)
    have ne2 : d ≠ 2 := fun he => hden (by rw [he]; rfl)
    have ne3 : d ≠ 3 := fun he => hden (by rw [he]; rfl)
    have ne4 : d ≠ 4 := fun he => hden (by rw [he]; rfl)
    rw [if_neg ne0, if_neg ne1, if_neg ne2, if_neg ne3, if_neg ne4]

/-- C2 (witness): bands 2 and 3 have integral difference 1 and score
max (100 − 25·1) 0 = 75. -/
theorem fee_band_score_formula_witness :
    (|(2 : ℚ) - 3|).den = 1 ∧
    fee_band_score (some 2) (some 3) = max (100 - 25 * |(2 : ℚ) - 3|) 0 :=
  ⟨by rw [show |(2 : ℚ) - 3| = 1 by norm_num]; exact Rat.den_one,
   (fee_band_score_formula 2 3).1
     (by rw [show |(2 : ℚ) - 3| = 1 by norm_num]; exact Rat.den_one)⟩

/-- C3 (counterexample): the supplied weights (20.005, 20, 20, 20, 20) do
not sum to 100, yet construction keeps them unchanged and reports no
rescaling, because their total is within the 0.01 tolerance of 100. -/
theorem weight_tolerance_counterexample :
    Weights.total ⟨20 + 1/200, 20, 20, 20, 20⟩ ≠ 100 ∧
    normalizeWeights ⟨20 + 1/200, 20, 20, 20, 20⟩ =
      .ok (⟨20 + 1/200, 20, 20, 20, 20⟩, false) := by
  constructor
  · norm_num [Weights.total]
  · norm_num [normalizeWeights, Weights.total, abs_le]

/-- C3 (amended): whenever the supplied weights have positive total
differing from 100 by more than the 0.01 tolerance, construction rescales
each weight proportionally (weight/total×100), the rescaled weights sum to
exactly 100, and the rescaling is reported; in particular
{40,40,40,40,40} normalizes to {20,20,20,20,20}. -/
theorem weight_normalization_rescale :
    (∀ wt : Weights, 0 < wt.total → |wt.total - 100| > 1/100 →
      ∃ wn : Weights, normalizeWeights wt = .ok (wn, true) ∧ wn.total = 100 ∧
        wn.currency = wt.currency / wt.total * 100 ∧
        wn.passive = wt.passive / wt.total * 100 ∧
        wn.fee = wt.fee / wt.total * 100 ∧
        wn.region = wt.region / wt.total * 100 ∧
        wn.sector = wt.sector / wt.total * 100) ∧
    normalizeWeights ⟨40, 40, 40, 40, 40⟩ = .ok (⟨20, 20, 20, 20, 20⟩, true) := by
  constructor
  · intro wt hpos hcond
    have ht : wt.total ≠ 0 := ne_of_gt hpos
    refine ⟨{ currency := wt.currency / wt.total * 100,
              passive := wt.passive / wt.total * 100,
              fee := wt.fee / wt.total * 100,
              region := wt.region / wt.total * 100,
              sector := wt.sector / wt.total * 100 }, ?_, ?_, rfl, rfl, rfl, rfl, rfl⟩
    · unfold normalizeWeights
      rw [if_pos hcond, if_neg ht]
    · show wt.currency / wt.total * 100 + wt.passive / wt.total * 100 +
        wt.fee / wt.total * 100 + wt.region / wt.total * 100 +
        wt.sector / wt.total * 100 = 100
      have htot : wt.currency + wt.passive + wt.fee + wt.region + wt.sector = wt.total := rfl
      field_simp
      linarith
  · norm_num [normalizeWeights, Weights.total]

/-- C3 (witness): the weights {40,40,40,40,40} have positive total 200,
outside the tolerance, so the general rescaling statement applies to them. -/
theorem weight_normalization_rescale_witness :
    ∃ wn : Weights,
      normalizeWeights ⟨40, 40, 40, 40, 40⟩ = .ok (wn, true) ∧ wn.total = 100 ∧
      wn.currency = Weights.currency ⟨40, 40, 40, 40, 40⟩ / Weights.total ⟨40, 40, 40, 40, 40⟩ * 100 ∧
      wn.passive = Weights.passive ⟨40, 40, 40, 40, 40⟩ / Weights.total ⟨40, 40, 40, 40, 40⟩ * 100 ∧
      wn.fee = Weights.fee ⟨40, 40, 40, 40, 40⟩ / Weights.total ⟨40, 40, 40, 40, 40⟩ * 100 ∧
      wn.region = Weights.region ⟨40, 40, 40, 40, 40⟩ / Weights.total ⟨40, 40, 40, 40, 40⟩ * 100 ∧
      wn.sector = Weights.sector ⟨40, 40, 40, 40, 40⟩ / Weights.total ⟨40, 40, 40, 40, 40⟩ * 100 :=
  weight_normalization_rescale.1 ⟨40, 40, 40, 40, 40⟩
    (by norm_num [Weights.total]) (by norm_num [Weights.total])

/-- C5 (confirmed): `score_peers_for_fund` raises exactly when the target
identifier is absent from the universe, the raised condition is NotFound
for that identifier, and an error run carries no partial result rows. -/
theorem score_peers_error_iff (w : Weights) (tid : String) (funds : List Fund)
    (ep : Bool) (e : PeerError) :
    score_peers_for_fund w tid funds ep = .error e ↔
      ((∀ f ∈ funds, f.fund_id ≠ tid) ∧ e = .notFound tid) := by
  unfold score_peers_for_fund
  cases h : (funds.filter (fun f => decide (f.fund_id = tid))).head? with
  | none =>
    rw [List.head?_eq_none_iff, List.filter_eq_nil_iff] at h
    simp only [decide_eq_true_eq] at h
    constructor
    · intro heq
      have he : PeerError.notFound tid = e := by injection heq
      exact ⟨h, he.symm⟩
    · rintro ⟨-, rfl⟩
      rfl
  | some target =>
    constructor
    · intro heq
      exfalso
      dsimp only at heq
      cases hc : target.morningstar_category with
      | none =>
        rw [hc] at heq
        exact Except.noConfusion heq
      | some cat =>
        rw [hc] at heq
        dsimp only at heq
        split at heq <;> first
          | exact Except.noConfusion heq
          | (split at heq <;> exact Except.noConfusion heq)
    · rintro ⟨habs, rfl⟩
      exfalso
      have hmem : target ∈ funds.filter (fun f => decide (f.fund_id = tid)) :=
        List.mem_of_mem_head? (by simp [h])
      rw [List.mem_filter] at hmem
      exact habs target hmem.1 (by simpa using hmem.2)

/-- C4 (confirmed): with the exclude-passive flag set, a non-passive
target's result contains no passive peer, while a passive target retains
every same-category candidate — passive ones included. -/
theorem passive_exclusion_asymmetry (w : Weights) (funds : List Fund)
    (tid : String) (target : Fund)
    (h : (funds.filter (fun f => decide (f.fund_id = tid))).head? = some target) :
    (target.is_passive = some false →
      ∀ r ∈ okPeers (score_peers_for_fund w tid funds true),
        r.is_passive ≠ some true) ∧
    (target.is_passive = some true →
      ∀ cat, target.morningstar_category = some cat →
      ∀ f ∈ funds, f.morningstar_category = some cat → f.fund_id ≠ tid →
      ∃ r ∈ okPeers (score_peers_for_fund w tid funds true),
        r.fund_id = f.fund_id ∧ r.is_passive = f.is_passive) := by
  constructor
  · intro hp r hr
    unfold score_peers_for_fund at hr
    rw [h] at hr
    dsimp only at hr
    cases hc : target.morningstar_category with
    | none =>
      rw [hc] at hr
      simp [okPeers] at hr
    | some cat =>
      rw [hc] at hr
      dsimp only at hr
      rw [hp] at hr
      simp only [passive_truthy, Bool.not_false, Bool.and_self, if_true] at hr
      split at hr
      · simp [okPeers] at hr
      · simp only [okPeers] at hr
        have hmem := (List.perm_insertionSort score_ge _).mem_iff.mp hr
        rw [List.mem_map] at hmem
        obtain ⟨cand, hcand, rfl⟩ := hmem
        rw [List.mem_filter] at hcand
        have hcp : cand.is_passive ≠ some true := by simpa using hcand.2
        simpa [mk_peer_result] using hcp
  · intro hp cat hcat f hf hfcat hfid
    unfold score_peers_for_fund
    rw [h]
    dsimp only
    rw [hcat]
    dsimp only
    rw [hp]
    simp only [passive_truthy, Bool.not_true, Bool.and_false, if_false]
    have hfmem : f ∈ funds.filter (fun g =>
        decide (g.morningstar_category = some cat) && decide (g.fund_id ≠ tid)) :=
      List.mem_filter.mpr ⟨hf, by simp [hfcat, hfid]⟩
    rw [if_neg (by simpa [List.isEmpty_iff] using List.ne_nil_of_mem hfmem)]
    refine ⟨mk_peer_result w target cat f, ?_, rfl, rfl⟩
    simp only [okPeers]
    refine (List.perm_insertionSort score_ge _).mem_iff.mpr ?_
    exact List.mem_map.mpr ⟨f, hfmem, rfl⟩

/-- C4 (witness): passive target T with passive same-category candidate P
under exclude-passive: P is retained in the result. -/
theorem passive_exclusion_asymmetry_witness :
    ∃ r ∈ okPeers (score_peers_for_fund defaultWeights "T" [fundT, fundP] true),
      r.fund_id = fundP.fund_id ∧ r.is_passive = fundP.is_passive :=
  (passive_exclusion_asymmetry defaultWeights [fundT, fundP] "T" fundT
    (by decide)).2 rfl "X" rfl fundP (by decide) rfl (by decide)

/-- C6 (confirmed): a full peer-group record's peers are exactly the
score-filtered rows capped at the first max-peers of the score-descending
sequence; hence the group size is min(max_peers, qualifying count) and
every retained peer scores at least as high as every qualifying peer cut
off by the cap. -/
theorem peer_group_filter_cap (w : Weights) (funds : List Fund) (ms : ℚ) (mp : ℕ)
    (ep : Bool) (tid : String)
    (h : entry_isGroup (build_peer_group w funds ms mp ep tid) = true) :
    entry_peers (build_peer_group w funds ms mp ep tid) =
      ((okPeers (score_peers_for_fund w tid funds ep)).filter
        (fun p => decide (ms ≤ p.peer_score))).take mp ∧
    (entry_peers (build_peer_group w funds ms mp ep tid)).length =
      min mp ((okPeers (score_peers_for_fund w tid funds ep)).filter
        (fun p => decide (ms ≤ p.peer_score))).length ∧
    ∀ p ∈ entry_peers (build_peer_group w funds ms mp ep tid),
      ∀ q ∈ ((okPeers (score_peers_for_fund w tid funds ep)).filter
        (fun p => decide (ms ≤ p.peer_score))).drop mp,
        q.peer_score ≤ p.peer_score := by
  unfold build_peer_group at h ⊢
  cases hh : (funds.filter (fun f => decide (f.fund_id = tid))).head? with
  | none =>
    rw [hh] at h
    simp [entry_isGroup] at h
  | some fund_row =>
    rw [hh] at h
    dsimp only at h ⊢
    by_cases hemp : (okPeers (score_peers_for_fund w tid funds ep)).isEmpty
    · rw [if_pos hemp] at h
      simp [entry_isGroup] at h
    · rw [if_neg hemp] at h ⊢
      dsimp only [entry_peers]
      refine ⟨rfl, List.length_take mp _, ?_⟩
      intro p hp q hq
      have hsorted : List.Sorted score_ge
          ((okPeers (score_peers_for_fund w tid funds ep)).filter
            (fun p => decide (ms ≤ p.peer_score))) :=
        (sorted_okPeers w tid funds ep).filter _
      rw [← List.take_append_drop mp ((okPeers (score_peers_for_fund w tid funds ep)).filter
        (fun p => decide (ms ≤ p.peer_score)))] at hsorted
      obtain ⟨-, -, hcross⟩ := List.pairwise_append.mp hsorted
      exact hcross p hp q hq

/-- C6 (witness): target A with one qualifying candidate B, threshold 0,
cap 1: the group is the first (and only) element of the qualifying
sequence. -/
theorem peer_group_filter_cap_witness :
    entry_peers (build_peer_group defaultWeights [fundA, fundB] 0 1 true "A") =
      ((okPeers (score_peers_for_fund defaultWeights "A" [fundA, fundB] true)).filter
        (fun p => decide ((0 : ℚ) ≤ p.peer_score))).take 1 ∧
    (entry_peers (build_peer_group defaultWeights [fundA, fundB] 0 1 true "A")).length =
      min 1 ((okPeers (score_peers_for_fund defaultWeights "A" [fundA, fundB] true)).filter
        (fun p => decide ((0 : ℚ) ≤ p.peer_score))).length ∧
    ∀ p ∈ entry_peers (build_peer_group defaultWeights [fundA, fundB] 0 1 true "A"),
      ∀ q ∈ ((okPeers (score_peers_for_fund defaultWeights "A" [fundA, fundB] true)).filter
        (fun p => decide ((0 : ℚ) ≤ p.peer_score))).drop 1,
        q.peer_score ≤ p.peer_score :=
  peer_group_filter_cap defaultWeights [fundA, fundB] 0 1 true "A" (by decide)

/-- C10 (confirmed): construction fails with the division-by-zero error
exactly for a zero weight total (normalization always triggers there, and
each weight is divided by the zero total); any positive total constructs
successfully. -/
theorem init_zero_division (wt : Weights) :
    (wt.total = 0 → normalizeWeights wt = .error .divisionByZero) ∧
    (0 < wt.total → ∃ r, normalizeWeights wt = .ok r) := by
  constructor
  · intro h0
    have hcond : |wt.total - 100| > 1/100 := by rw [h0]; norm_num
    unfold normalizeWeights
    rw [if_pos hcond, if_pos h0]
  · intro hpos
    unfold normalizeWeights
    by_cases hcond : |wt.total - 100| > 1/100
    · rw [if_pos hcond, if_neg (ne_of_gt hpos)]
      exact ⟨_, rfl⟩
    · rw [if_neg hcond]
      exact ⟨_, rfl⟩

/-- C10 (witness): all-zero weights fail with division-by-zero; weights
totalling 1 construct successfully. -/
theorem init_zero_division_witness :
    normalizeWeights ⟨0, 0, 0, 0, 0⟩ = .error .divisionByZero ∧
    ∃ r, normalizeWeights ⟨1, 0, 0, 0, 0⟩ = .ok r :=
  ⟨(init_zero_division ⟨0, 0, 0, 0, 0⟩).1 (by norm_num [Weights.total]),
   (init_zero_division ⟨1, 0, 0, 0, 0⟩).2 (by norm_num [Weights.total])⟩

/-- C7 (confirmed): the rows returned by a run of the peer finder are
pairwise ordered by descending overall peer score. -/
theorem peer_results_sorted_desc (w : Weights) (tid : String)
    (funds : List Fund) (ep : Bool) :
    List.Pairwise (fun a b => b.peer_score ≤ a.peer_score)
      (okPeers (score_peers_for_fund w tid funds ep)) :=
  sorted_okPeers w tid funds ep

/-- C8 (confirmed): every component scorer returns a value in [0,100] for
all inputs, present or missing; and the overall score of
`calculate_peer_score` lies in [0,100] for all fund pairs whenever the
five weights are non-negative (the spec's weight domain) and sum to 100. -/
theorem component_and_overall_bounds :
    (∀ a b : Option String, 0 ≤ currency_score a b ∧ currency_score a b ≤ 100) ∧
    (∀ a b : Option Bool, 0 ≤ passive_score a b ∧ passive_score a b ≤ 100) ∧
    (∀ a b : Option ℚ, 0 ≤ fee_band_score a b ∧ fee_band_score a b ≤ 100) ∧
    (∀ a b : Option String, 0 ≤ region_score a b ∧ region_score a b ≤ 100) ∧
    (∀ a b : Option String, 0 ≤ sector_score a b ∧ sector_score a b ≤ 100) ∧
    (∀ (w : Weights) (f1 f2 : Fund),
      0 ≤ w.currency → 0 ≤ w.passive → 0 ≤ w.fee → 0 ≤ w.region → 0 ≤ w.sector →
      w.total = 100 →
      0 ≤ (calculate_peer_score w f1 f2).1 ∧ (calculate_peer_score w f1 f2).1 ≤ 100) :=
  ⟨currency_score_bounds, passive_score_bounds, fee_band_score_bounds,
   region_score_bounds, sector_score_bounds,
   fun w f1 f2 hc hp hf hr hs ht => overall_score_bounds w f1 f2 hc hp hf hr hs ht⟩

/-- C8 (witness): with the default weights (non-negative, total 100) the
overall score of the scenario pair lies in [0,100]. -/
theorem component_and_overall_bounds_witness :
    0 ≤ (calculate_peer_score defaultWeights fundA fundB).1 ∧
    (calculate_peer_score defaultWeights fundA fundB).1 ≤ 100 :=
  component_and_overall_bounds.2.2.2.2.2 defaultWeights fundA fundB
    (by norm_num [defaultWeights]) (by norm_num [defaultWeights])
    (by norm_num [defaultWeights]) (by norm_num [defaultWeights])
    (by norm_num [defaultWeights]) (by norm_num [defaultWeights, Weights.total])

/-- C9 (confirmed): each of the five component scorers returns the same
value when its two arguments are swapped. -/
theorem component_scores_symmetric :
    (∀ a b : Option String, currency_score a b = currency_score b a) ∧
    (∀ a b : Option Bool, passive_score a b = passive_score b a) ∧
    (∀ a b : Option ℚ, fee_band_score a b = fee_band_score b a) ∧
    (∀ a b : Option String, region_score a b = region_score b a) ∧
    (∀ a b : Option String, sector_score a b = sector_score b a) :=
  ⟨currency_score_comm, passive_score_comm, fee_band_score_comm,
   region_score_comm, sector_score_comm⟩

end FIPeerScoring
